import Mathlib

/-!
Verification development for the WarmIt email-warming system.

Each definition in this file is a shallow embedding of a function of the
Python source (`src/warmit/...`), translated as directly as Lean allows:
machine integers become `Int`/`Nat`, wall-clock instants become integer
unix seconds, database rows become structures, and the few external
capabilities the code calls out to (the HMAC primitive of `hashlib`, the
RFC-5322 address regex of `re`, the remote chat-completion endpoint, the
randomized choices) are taken as explicit function parameters.

Python string primitives (`str.strip`, `str.lower`, `str.split`,
`str.startswith`, substring search) are embedded as structural functions
over `List Char`, so that every definition evaluates inside the kernel;
ASCII case folding matches Python on the ASCII inputs the code handles.
-/

namespace WarmIt

/-! ## Python string primitives over `List Char` -/

/-- Python default whitespace for `str.strip` (ASCII subset). -/
def isPyWs (c : Char) : Bool :=
  c = ' ' || c = '\t' || c = '\n' || c = '\x0d' || c = '\x0b' || c = '\x0c'

/-- `str.strip()` on a character list. -/
def stripC (s : List Char) : List Char :=
  ((s.dropWhile isPyWs).reverse.dropWhile isPyWs).reverse

/-- ASCII lowering of one character, as `str.lower` acts on ASCII. -/
def lowerChar (c : Char) : Char :=
  if 'A' ≤ c && c ≤ 'Z' then Char.ofNat (c.toNat + 32) else c

/-- `str.lower()` on a character list (ASCII case folding). -/
def lowerC (s : List Char) : List Char := s.map lowerChar

/-- `str.startswith(p)` on character lists. -/
def startsWithC : List Char → List Char → Bool
  | _, [] => true
  | [], _ :: _ => false
  | c :: cs, p :: ps => c = p && startsWithC cs ps

/-- `s.split("\n")` on a character list: split on every newline,
keeping empty segments (Python semantics). -/
def splitNl : List Char → List (List Char)
  | [] => [[]]
  | c :: cs =>
      let r := splitNl cs
      if c = '\n' then [] :: r
      else
        match r with
        | h :: t => (c :: h) :: t
        | [] => [[c]]

/-- `"\n".join(xs)` on character lists. -/
def joinNl : List (List Char) → List Char
  | [] => []
  | [l] => l
  | l :: ls => l ++ '\n' :: joinNl ls

/-- Substring test (`needle in haystack` for Python strings). -/
def containsSub (hay needle : List Char) : Bool :=
  match hay with
  | [] => needle.isEmpty
  | _ :: rest => startsWithC hay needle || containsSub rest needle

/-! ## AIGenerator._parse_email_content (services/ai_generator.py)

`_parse_email_content` splits the raw AI response on newlines, takes the
first line starting (case-insensitively) with `Subject:` or `Oggetto:` as
the subject, collects the remaining lines after skipping leading blanks as
the body, and falls back to the whole stripped response when the body is
empty.  The default subject is the constant string `"Hello!"`. -/

/-- A line carries the subject when, lowercased, it starts with
`subject:` or `oggetto:` (mirrors `line.lower().startswith(...)`). -/
def isSubjectLine (l : List Char) : Bool :=
  startsWithC (lowerC l) "subject:".data || startsWithC (lowerC l) "oggetto:".data

/-- Everything after the first `:` of the line
(mirrors `line.split(":", 1)[1]`; empty when the line has no colon). -/
def afterFirstColon : List Char → List Char
  | [] => []
  | c :: cs => if c = ':' then cs else afterFirstColon cs

/-- Scan for the first subject line; return the stripped subject together
with the index of the following line (mirrors the `for i, line in
enumerate(lines)` loop that sets `subject` and `body_start_idx = i + 1`). -/
def findSubject : List (List Char) → Nat → Option (List Char × Nat)
  | [], _ => none
  | l :: ls, i =>
      if isSubjectLine l then some (stripC (afterFirstColon l), i + 1)
      else findSubject ls (i + 1)

/-- Collect body lines: a line is kept when it is non-blank or collection
has already started (mirrors `if line.strip() or body_lines`). -/
def collectBody : List (List Char) → Bool → List (List Char)
  | [], _ => []
  | l :: ls, started =>
      if started || !(stripC l).isEmpty then l :: collectBody ls true
      else collectBody ls started

/-- Shallow embedding of `AIGenerator._parse_email_content` on character
lists. -/
def parseEmailContentC (content : List Char) : List Char × List Char :=
  let lines := splitNl (stripC content)
  let sb : List Char × Nat :=
    match findSubject lines 0 with
    | some si => si
    | none => ("Hello!".data, 0)
  let body := stripC (joinNl (collectBody (lines.drop sb.2) false))
  if body.isEmpty then (sb.1, stripC content) else (sb.1, body)

/-- Shallow embedding of `AIGenerator._parse_email_content`. -/
def parseEmailContent (content : String) : String × String :=
  let p := parseEmailContentC content.data
  (String.mk p.1, String.mk p.2)

/-- Helper: `findSubject` returns `none` when no line is a subject line,
whatever the running index. -/
lemma findSubject_eq_none (lines : List (List Char))
    (h : ∀ l ∈ lines, isSubjectLine l = false) :
    ∀ i, findSubject lines i = none := by
  induction lines with
  | nil => intro i; rfl
  | cons l ls ih =>
      intro i
      have hl : isSubjectLine l = false := h l (by simp)
      have hrest : ∀ l' ∈ ls, isSubjectLine l' = false := by
        intro l' hl'; exact h l' (by simp [hl'])
      simp [findSubject, hl, ih hrest]

/-- Helper: once collection has started, `collectBody` keeps every line. -/
lemma collectBody_started (lines : List (List Char)) :
    collectBody lines true = lines := by
  induction lines with
  | nil => rfl
  | cons l ls ih => simp [collectBody, ih]

/-- C9 counterexample.  The claim predicts the Italian default subject
`"Ciao!"` for an Italian response without a subject line, but
`_parse_email_content` takes no language and always defaults the subject
to `"Hello!"`. -/
theorem parse_no_italian_default :
    parseEmailContent "Ciao, come stai?" = ("Hello!", "Ciao, come stai?") ∧
    (parseEmailContent "Ciao, come stai?").1 ≠ "Ciao!" := by decide

/-- C9 (amended): parsing `"Subject: X\n\nY"` yields `(X, Y)`, the first
line matching `Subject:`/`Oggetto:` case-insensitively provides the
subject and the lines after the blank line provide the body; with no
subject line the subject defaults to `"Hello!"` in both languages and the
body is the entire stripped response; an empty body falls back to the
entire stripped response. -/
theorem parse_email_content_spec :
    parseEmailContent "Subject: Meeting notes\n\nHello Bob" =
      ("Meeting notes", "Hello Bob") ∧
    parseEmailContent "Oggetto: Nota\n\nCiao Anna" = ("Nota", "Ciao Anna") ∧
    (∀ (l x : List Char) (rest : List (List Char)),
      isSubjectLine l = true → stripC (afterFirstColon l) = x →
      findSubject (l :: rest) 0 = some (x, 1)) ∧
    (∀ (b : List Char) (rest : List (List Char)), stripC b = [] →
      collectBody (b :: rest) false = collectBody rest false) ∧
    (∀ (y : List Char) (rest : List (List Char)), (stripC y).isEmpty = false →
      collectBody (y :: rest) false = y :: rest) ∧
    (∀ content : List Char,
      (∀ l ∈ splitNl (stripC content), isSubjectLine l = false) →
      (parseEmailContentC content).1 = "Hello!".data) ∧
    parseEmailContent "Thanks for the update" = ("Hello!", "Thanks for the update") ∧
    parseEmailContent "Subject: X\n\n" = ("X", "Subject: X") := by
  refine ⟨by decide, by decide, ?_, ?_, ?_, ?_, by decide, by decide⟩
  · intro l x rest hl hx
    simp [findSubject, hl, hx]
  · intro b rest hb
    simp [collectBody, hb]
  · intro y rest hy
    simp only [collectBody, hy]
    simp [collectBody_started]
  · intro content hns
    simp only [parseEmailContentC, findSubject_eq_none _ hns 0]
    split <;> rfl

/-- Witness for `parse_email_content_spec` at concrete inputs. -/
theorem parse_email_content_spec_witness :
    findSubject ["subject: Hi".data, "Yo".data] 0 = some ("Hi".data, 1) ∧
    collectBody [[], "Yo".data] false = collectBody ["Yo".data] false ∧
    collectBody ["Yo".data, [].map id] false = ["Yo".data, []] ∧
    (parseEmailContentC "Just a body".data).1 = "Hello!".data := by
  refine ⟨?_, ?_, ?_, ?_⟩
  · exact parse_email_content_spec.2.2.1 "subject: Hi".data "Hi".data
      ["Yo".data] (by decide) (by decide)
  · exact parse_email_content_spec.2.2.2.1 [] ["Yo".data] (by decide)
  · exact parse_email_content_spec.2.2.2.2.1 "Yo".data [[].map id] (by decide)
  · exact parse_email_content_spec.2.2.2.2.2.1 "Just a body".data (by decide)

/-! ## RateLimitTracker (services/rate_limit_tracker.py)

Per-key state `RateLimitInfo` and the tracker operations
`_check_resets`, `record_request`, `can_make_request`.  Wall-clock time
(`time.time()`) is passed in as `now` in unix seconds; `hourly_history`
is a `deque(maxlen=60)`. -/

/-- Mirror of the `RateLimitInfo` dataclass. -/
structure RateLimitInfo where
  provider : String
  keyId : String
  rpmLimit : Nat
  rpdLimit : Nat
  requestsThisMinute : Nat := 0
  requestsToday : Nat := 0
  minuteResetTime : Nat := 0
  dayResetTime : Nat := 0
  hourlyHistory : List Nat := []
  isExhausted : Bool := false
  lastRequestTime : Nat := 0
  deriving Repr, DecidableEq

/-- Mirror of `_get_next_midnight_timestamp`: unix timestamp of the next
UTC midnight after `t` (tomorrow at 00:00:00). -/
def nextMidnight (t : Nat) : Nat := (t / 86400 + 1) * 86400

/-- `deque(maxlen=60).append(now)`: append and drop the oldest entries
beyond 60. -/
def appendHistory (h : List Nat) (now : Nat) : List Nat :=
  let h2 := h ++ [now]
  if 60 < h2.length then h2.drop (h2.length - 60) else h2

/-- Mirror of `RateLimitTracker._check_resets` on one key's info: reset
the minute counter when its window has passed (re-arming to `now + 60`)
and the day counter when its window has passed (re-arming to the next
UTC midnight). -/
def checkResets (info : RateLimitInfo) (now : Nat) : RateLimitInfo :=
  let info1 :=
    if info.minuteResetTime ≤ now then
      { info with requestsThisMinute := 0, minuteResetTime := now + 60,
                  isExhausted := false }
    else info
  if info1.dayResetTime ≤ now then
    { info1 with requestsToday := 0, dayResetTime := nextMidnight now,
                 isExhausted := false }
  else info1

/-- Mirror of `RateLimitTracker`: the `keys` dict as an association list. -/
structure RateLimitTracker where
  keys : List (String × RateLimitInfo)
  deriving Repr, DecidableEq

/-- Dict lookup `self.keys[key_id]` (with the `key_id in self.keys`
guard folded in as `Option`). -/
def lookupKey : List (String × RateLimitInfo) → String → Option RateLimitInfo
  | [], _ => none
  | p :: ps, k => if p.1 = k then some p.2 else lookupKey ps k

/-- Dict update `self.keys[key_id] = info` for a key already present. -/
def setKey (t : RateLimitTracker) (k : String) (info : RateLimitInfo) :
    RateLimitTracker :=
  ⟨t.keys.map fun p => if p.1 = k then (p.1, info) else p⟩

/-- Mirror of `RateLimitInfo.time_until_rpm_reset` (seconds, floored at 0). -/
def timeUntilRpmReset (info : RateLimitInfo) (now : Nat) : Nat :=
  info.minuteResetTime - now

/-- Mirror of `RateLimitInfo.time_until_rpd_reset` (seconds, floored at 0). -/
def timeUntilRpdReset (info : RateLimitInfo) (now : Nat) : Nat :=
  info.dayResetTime - now

/-- Mirror of `RateLimitTracker.record_request`: unknown keys are allowed
without any state change; otherwise run resets, deny (setting
`is_exhausted`) when either window is full, else increment both counters
and append to the history ring. -/
def recordRequest (t : RateLimitTracker) (k : String) (now : Nat) :
    Bool × RateLimitTracker :=
  match lookupKey t.keys k with
  | none => (true, t)
  | some info0 =>
      let info := checkResets info0 now
      if info.rpmLimit ≤ info.requestsThisMinute then
        (false, setKey t k { info with isExhausted := true })
      else if info.rpdLimit ≤ info.requestsToday then
        (false, setKey t k { info with isExhausted := true })
      else
        (true, setKey t k
          { info with
            requestsThisMinute := info.requestsThisMinute + 1,
            requestsToday := info.requestsToday + 1,
            lastRequestTime := now,
            isExhausted := false,
            hourlyHistory := appendHistory info.hourlyHistory now })

/-- Mirror of `RateLimitTracker.can_make_request`: unknown keys are
allowed with an empty reason and no state change; otherwise run resets
(which persist in the tracker) and report whether both windows have room. -/
def canMakeRequest (t : RateLimitTracker) (k : String) (now : Nat) :
    (Bool × String) × RateLimitTracker :=
  match lookupKey t.keys k with
  | none => ((true, ""), t)
  | some info0 =>
      let info := checkResets info0 now
      let t1 := setKey t k info
      if info.rpmLimit ≤ info.requestsThisMinute then
        ((false, "RPM limit reached. Wait " ++
          toString (timeUntilRpmReset info now) ++ "s."), t1)
      else if info.rpdLimit ≤ info.requestsToday then
        ((false, "Daily limit reached. Wait " ++
          toString (timeUntilRpdReset info now / 3600) ++ "h."), t1)
      else ((true, ""), t1)

/-- One ledger operation: a `record_request` or a `can_make_request` call
at some instant. -/
inductive LedgerOp where
  | record (key : String) (now : Nat)
  | canUse (key : String) (now : Nat)
  deriving Repr, DecidableEq

/-- Apply one ledger operation to the tracker state. -/
def applyLedgerOp (t : RateLimitTracker) : LedgerOp → RateLimitTracker
  | .record k now => (recordRequest t k now).2
  | .canUse k now => (canMakeRequest t k now).2

/-- Run a sequence of ledger operations. -/
def runLedgerOps (t : RateLimitTracker) (ops : List LedgerOp) : RateLimitTracker :=
  ops.foldl applyLedgerOp t

/-- Both counters of a key are within their limits. -/
def WFInfo (i : RateLimitInfo) : Prop :=
  i.requestsThisMinute ≤ i.rpmLimit ∧ i.requestsToday ≤ i.rpdLimit

/-- Every tracked key has in-bound counters. -/
def WFTracker (t : RateLimitTracker) : Prop := ∀ p ∈ t.keys, WFInfo p.2

/-- Helper: a successful lookup comes from a member of the list. -/
lemma lookupKey_mem {keys : List (String × RateLimitInfo)} {k : String}
    {info : RateLimitInfo} (h : lookupKey keys k = some info) :
    (k, info) ∈ keys := by
  induction keys with
  | nil => simp [lookupKey] at h
  | cons p ps ih =>
      obtain ⟨a, b⟩ := p
      by_cases hp : a = k
      · simp [lookupKey, hp] at h
        subst hp
        subst h
        exact List.mem_cons_self _ _
      · simp [lookupKey, hp] at h
        exact List.mem_cons_of_mem _ (ih h)

/-- Helper: closed form of `_check_resets` with the two window tests as
independent conditionals. -/
lemma checkResets_spec (info : RateLimitInfo) (now : Nat) :
    checkResets info now =
      { info with
        requestsThisMinute :=
          if info.minuteResetTime ≤ now then 0 else info.requestsThisMinute,
        minuteResetTime :=
          if info.minuteResetTime ≤ now then now + 60 else info.minuteResetTime,
        requestsToday :=
          if info.dayResetTime ≤ now then 0 else info.requestsToday,
        dayResetTime :=
          if info.dayResetTime ≤ now then nextMidnight now else info.dayResetTime,
        isExhausted :=
          if info.minuteResetTime ≤ now ∨ info.dayResetTime ≤ now then false
          else info.isExhausted } := by
  by_cases h1 : info.minuteResetTime ≤ now <;>
    by_cases h2 : info.dayResetTime ≤ now <;>
      simp [checkResets, h1, h2]

/-- Helper: window resets keep counters within limits. -/
lemma wfInfo_checkResets {info : RateLimitInfo} (now : Nat) (h : WFInfo info) :
    WFInfo (checkResets info now) := by
  obtain ⟨h1, h2⟩ := h
  rw [checkResets_spec]
  refine ⟨?_, ?_⟩ <;> simp <;> split_ifs <;> simp_all

/-- Helper: replacing one key by an in-bound info keeps the tracker
well formed. -/
lemma wfTracker_setKey {t : RateLimitTracker} {k : String}
    {info : RateLimitInfo} (h : WFTracker t) (hi : WFInfo info) :
    WFTracker (setKey t k info) := by
  intro p hp
  have hp2 : p ∈ t.keys.map fun q => if q.1 = k then (q.1, info) else q := hp
  obtain ⟨q, hq, hpq⟩ := List.mem_map.1 hp2
  subst hpq
  by_cases hqk : q.1 = k
  · simp only [if_pos hqk]
    exact hi
  · simp only [if_neg hqk]
    exact h q hq

/-- Helper: `record_request` preserves in-bound counters. -/
lemma wfTracker_recordRequest {t : RateLimitTracker} (k : String) (now : Nat)
    (h : WFTracker t) : WFTracker (recordRequest t k now).2 := by
  cases hl : lookupKey t.keys k with
  | none => simpa [recordRequest, hl] using h
  | some info0 =>
      have hwf0 : WFInfo info0 := h (k, info0) (lookupKey_mem hl)
      have hwf : WFInfo (checkResets info0 now) := wfInfo_checkResets now hwf0
      simp only [recordRequest, hl]
      split_ifs with h1 h2
      · exact wfTracker_setKey h ⟨hwf.1, hwf.2⟩
      · exact wfTracker_setKey h ⟨hwf.1, hwf.2⟩
      · refine wfTracker_setKey h ⟨?_, ?_⟩ <;> simp <;> omega

/-- Helper: `can_make_request` preserves in-bound counters. -/
lemma wfTracker_canMakeRequest {t : RateLimitTracker} (k : String) (now : Nat)
    (h : WFTracker t) : WFTracker (canMakeRequest t k now).2 := by
  cases hl : lookupKey t.keys k with
  | none => simpa [canMakeRequest, hl] using h
  | some info0 =>
      have hwf0 : WFInfo info0 := h (k, info0) (lookupKey_mem hl)
      have hwf : WFInfo (checkResets info0 now) := wfInfo_checkResets now hwf0
      simp only [canMakeRequest, hl]
      split_ifs <;> exact wfTracker_setKey h hwf

/-- Helper: every operation sequence preserves in-bound counters. -/
lemma wfTracker_runLedgerOps (t : RateLimitTracker) (ops : List LedgerOp)
    (h : WFTracker t) : WFTracker (runLedgerOps t ops) := by
  induction ops generalizing t with
  | nil => exact h
  | cons op rest ih =>
      cases op with
      | record k now => exact ih _ (wfTracker_recordRequest k now h)
      | canUse k now => exact ih _ (wfTracker_canMakeRequest k now h)

/-- C8: from any state whose counters are within their limits, any
sequence of `record_request`/`can_make_request` calls keeps
`requests_this_minute ≤ rpm_limit` and `requests_today ≤ rpd_limit`; a
denied `record_request` returns `false` and writes back exactly the
reset-adjusted info with the `is_exhausted` flag (no counter increment,
history untouched) — in particular with no window boundary pending, the
counters and the history are literally unchanged; and when a window
boundary has passed, `_check_resets` zeroes the corresponding counter,
re-arming the minute window to `now + 60` and the day window to the next
UTC midnight. -/
theorem rate_limit_ledger_invariants :
    (∀ (t : RateLimitTracker) (ops : List LedgerOp),
      WFTracker t → WFTracker (runLedgerOps t ops)) ∧
    (∀ (t : RateLimitTracker) (k : String) (now : Nat) (info : RateLimitInfo),
      lookupKey t.keys k = some info →
      (recordRequest t k now).1 = false →
      (recordRequest t k now).2 =
        setKey t k { checkResets info now with isExhausted := true } ∧
      (checkResets info now).hourlyHistory = info.hourlyHistory ∧
      (now < info.minuteResetTime → now < info.dayResetTime →
        (recordRequest t k now).2 = setKey t k { info with isExhausted := true })) ∧
    (∀ (info : RateLimitInfo) (now : Nat),
      (info.minuteResetTime ≤ now →
        (checkResets info now).requestsThisMinute = 0 ∧
        (checkResets info now).minuteResetTime = now + 60) ∧
      (info.dayResetTime ≤ now →
        (checkResets info now).requestsToday = 0 ∧
        (checkResets info now).dayResetTime = nextMidnight now)) := by
  refine ⟨wfTracker_runLedgerOps, ?_, ?_⟩
  · intro t k now info hl hden
    have hhist : (checkResets info now).hourlyHistory = info.hourlyHistory := by
      rw [checkResets_spec]
    refine ⟨?_, hhist, ?_⟩
    · simp only [recordRequest, hl] at hden ⊢
      split_ifs at hden ⊢ with h1 h2 <;> rfl
    · intro hm hd
      have hcr : checkResets info now = info := by
        rw [checkResets_spec]
        have hm2 : ¬ info.minuteResetTime ≤ now := by omega
        have hd2 : ¬ info.dayResetTime ≤ now := by omega
        simp [hm2, hd2]
      simp only [recordRequest, hl, hcr] at hden ⊢
      split_ifs at hden ⊢ with h1 h2 <;> rfl
  · intro info now
    refine ⟨?_, ?_⟩
    · intro hm
      rw [checkResets_spec]
      exact ⟨by simp [hm], by simp [hm]⟩
    · intro hd
      rw [checkResets_spec]
      exact ⟨by simp [hd], by simp [hd]⟩

/-- Witness for `rate_limit_ledger_invariants` at a concrete tracker:
one key at its minute limit, a denied record, and boundary resets. -/
theorem rate_limit_ledger_invariants_witness :
    WFTracker ⟨[("openrouter_1",
      { provider := "openrouter", keyId := "openrouter_1",
        rpmLimit := 20, rpdLimit := 50, requestsThisMinute := 20,
        requestsToday := 20, minuteResetTime := 1060, dayResetTime := 86400 })]⟩ ∧
    WFTracker (runLedgerOps ⟨[("openrouter_1",
      { provider := "openrouter", keyId := "openrouter_1",
        rpmLimit := 20, rpdLimit := 50, requestsThisMinute := 20,
        requestsToday := 20, minuteResetTime := 1060, dayResetTime := 86400 })]⟩
      [.record "openrouter_1" 1000, .canUse "openrouter_1" 1001]) := by
  have hwf : WFTracker ⟨[("openrouter_1",
      { provider := "openrouter", keyId := "openrouter_1",
        rpmLimit := 20, rpdLimit := 50, requestsThisMinute := 20,
        requestsToday := 20, minuteResetTime := 1060, dayResetTime := 86400 })]⟩ := by
    intro p hp
    simp at hp
    rw [hp]
    exact ⟨by norm_num, by norm_num⟩
  exact ⟨hwf, rate_limit_ledger_invariants.1 _
    [.record "openrouter_1" 1000, .canUse "openrouter_1" 1001] hwf⟩

/-- C10: the ledger silently treats an unregistered key id as unlimited —
`can_make_request` answers `(true, "")` and `record_request` answers
`true`, and neither call creates or modifies any per-key state. -/
theorem unknown_key_unlimited (t : RateLimitTracker) (k : String) (now : Nat)
    (h : lookupKey t.keys k = none) :
    recordRequest t k now = (true, t) ∧
    canMakeRequest t k now = ((true, ""), t) := by
  unfold recordRequest canMakeRequest
  rw [h]
  exact ⟨rfl, rfl⟩

/-- Witness for `unknown_key_unlimited`: a tracker holding only
`groq_1` queried for the unregistered `openrouter_9`. -/
theorem unknown_key_unlimited_witness :
    recordRequest ⟨[("groq_1",
      { provider := "groq", keyId := "groq_1", rpmLimit := 30,
        rpdLimit := 1000 })]⟩ "openrouter_9" 500 =
      (true, ⟨[("groq_1",
      { provider := "groq", keyId := "groq_1", rpmLimit := 30,
        rpdLimit := 1000 })]⟩) ∧
    canMakeRequest ⟨[("groq_1",
      { provider := "groq", keyId := "groq_1", rpmLimit := 30,
        rpdLimit := 1000 })]⟩ "openrouter_9" 500 =
      ((true, ""), ⟨[("groq_1",
      { provider := "groq", keyId := "groq_1", rpmLimit := 30,
        rpdLimit := 1000 })]⟩) :=
  unknown_key_unlimited _ "openrouter_9" 500 (by decide)

/-! ## AIGenerator.generate_email (services/ai_generator.py)

`generate_email` iterates the configured key ring (`settings.
get_all_api_configs()`), calling the remote chat-completion endpoint with
the current key, switching to the next not-yet-failed provider only when
the remote call raises or returns empty content, and falling back to the
local template when the ring is empty or exhausted.  On a successful call
it records the request in the rate-limit ledger via `record_api_request`
(discarding the returned verdict).  The remote endpoint is abstracted as
`remote : String → Option String` from key id to response content
(`none` = exception, timeout or empty content). -/

/-- One entry of `settings.get_all_api_configs()`; the `provider` field
holds the key id (e.g. `"openrouter_1"`). -/
structure ApiConfig where
  provider : String
  apiKey : String
  baseUrl : String
  model : String
  deriving Repr, DecidableEq

/-- The mutable provider-cursor state of `AIGenerator`. -/
structure GenState where
  apiConfigs : List ApiConfig
  currentConfigIndex : Nat
  failedProviders : List String
  deriving Repr, DecidableEq

/-- The config the generator currently points at
(`self.api_configs[self.current_config_index]`). -/
def currentConfig (st : GenState) : Option ApiConfig :=
  st.apiConfigs[st.currentConfigIndex]?

/-- Scan forward from position `idx` for the first config whose provider
has not failed (the `while` loop of `_switch_to_next_provider`). -/
def findUsableFrom : List ApiConfig → List String → Nat → Option Nat
  | [], _, _ => none
  | c :: cs, failed, idx =>
      if failed.contains c.provider then findUsableFrom cs failed (idx + 1)
      else some idx

/-- Mirror of `AIGenerator._switch_to_next_provider`: mark the current
provider failed, advance the cursor past failed providers; `none` when no
provider remains. -/
def switchNextProvider (st : GenState) : Option GenState :=
  let failed :=
    match currentConfig st with
    | some cfg => cfg.provider :: st.failedProviders
    | none => st.failedProviders
  match findUsableFrom (st.apiConfigs.drop (st.currentConfigIndex + 1)) failed
      (st.currentConfigIndex + 1) with
  | some j => some { st with currentConfigIndex := j, failedProviders := failed }
  | none => none

/-- Result of `generate_email`: AI content (subject, body, model, key id
used) or the local template fallback. -/
inductive GenResult where
  | ai (subject body model keyId : String)
  | fallbackTemplate
  deriving Repr, DecidableEq

/-- Full outcome of a `generate_email` call: the content, the ledger
state afterwards, and the key ids remote calls were attempted with, in
order. -/
structure GenOutcome where
  content : GenResult
  tracker : RateLimitTracker
  callLog : List String
  deriving Repr, DecidableEq

/-- The retry loop of `generate_email` (`while retry_count < max_retries`),
with `remaining = max_retries - retry_count` as fuel.  A successful remote
call records the request in the ledger (ignoring the verdict) and returns
the parsed content; an error switches provider or falls back. -/
def genLoop (remote : String → Option String) (now : Nat)
    (tracker : RateLimitTracker) (st : GenState) :
    Nat → List String → GenOutcome
  | 0, callLog => ⟨.fallbackTemplate, tracker, callLog⟩
  | r + 1, callLog =>
      match currentConfig st with
      | none => ⟨.fallbackTemplate, tracker, callLog⟩
      | some cfg =>
          match remote cfg.provider with
          | some content =>
              let tracker2 := (recordRequest tracker cfg.provider now).2
              let p := parseEmailContentC content.data
              ⟨.ai (String.mk p.1) (String.mk p.2) cfg.model cfg.provider,
               tracker2, callLog ++ [cfg.provider]⟩
          | none =>
              match switchNextProvider st with
              | some st2 => genLoop remote now tracker st2 r (callLog ++ [cfg.provider])
              | none => ⟨.fallbackTemplate, tracker, callLog ++ [cfg.provider]⟩

/-- Mirror of `AIGenerator.generate_email`: empty ring means immediate
local fallback, otherwise run the retry loop from the first config with
`max_retries = len(api_configs)`. -/
def generateEmail (remote : String → Option String) (now : Nat)
    (tracker : RateLimitTracker) (configs : List ApiConfig) : GenOutcome :=
  if configs.isEmpty then ⟨.fallbackTemplate, tracker, []⟩
  else genLoop remote now tracker ⟨configs, 0, []⟩ configs.length []

/-- Scenario fixture: the key ring of end-to-end scenario 5
(`openrouter_1`, `openrouter_2`, `groq_1`). -/
def scenarioConfigs : List ApiConfig :=
  [⟨"openrouter_1", "k1", "https://openrouter.ai/api/v1", "m"⟩,
   ⟨"openrouter_2", "k2", "https://openrouter.ai/api/v1", "m"⟩,
   ⟨"groq_1", "k3", "https://api.groq.com/openai/v1", "g"⟩]

/-- Scenario fixture: `openrouter_1` saturated at 20/20 rpm, the other
keys untouched, at `now = 1000` with both windows still open. -/
def scenarioTracker : RateLimitTracker :=
  ⟨[("openrouter_1",
      { provider := "openrouter", keyId := "openrouter_1", rpmLimit := 20,
        rpdLimit := 50, requestsThisMinute := 20, requestsToday := 20,
        minuteResetTime := 1060, dayResetTime := 86400 }),
    ("openrouter_2",
      { provider := "openrouter", keyId := "openrouter_2", rpmLimit := 20,
        rpdLimit := 50, minuteResetTime := 1060, dayResetTime := 86400 }),
    ("groq_1",
      { provider := "groq", keyId := "groq_1", rpmLimit := 30,
        rpdLimit := 1000, minuteResetTime := 1060, dayResetTime := 86400 })]⟩

/-- Scenario fixture: every remote key answers successfully. -/
def scenarioRemote : String → Option String :=
  fun _ => some "Subject: Hi\n\nHello there"

/-- C2 counterexample.  With `openrouter_1` at its per-minute limit and
`openrouter_2` reachable, `generate_email` still makes its remote call
with `openrouter_1` and returns content produced via it, and
`openrouter_2`'s daily counter stays 0 — the ledger is never consulted
before the call, refuting the claimed skip of denied keys. -/
theorem generate_email_ignores_rate_limit :
    (generateEmail scenarioRemote 1000 scenarioTracker scenarioConfigs).content =
      GenResult.ai "Hi" "Hello there" "m" "openrouter_1" ∧
    (generateEmail scenarioRemote 1000 scenarioTracker scenarioConfigs).callLog =
      ["openrouter_1"] ∧
    (lookupKey (generateEmail scenarioRemote 1000 scenarioTracker
        scenarioConfigs).tracker.keys "openrouter_2").map
        RateLimitInfo.requestsToday = some 0 := by
  refine ⟨?_, ?_, ?_⟩ <;> decide

/-- C2 (amended): `generate_email` never consults the rate-limit ledger
before a remote call: whatever the ledger state, the first remote call is
made with the first key of the ring, and when that call succeeds the
returned content is produced via that key with the request recorded in
the ledger afterwards (its verdict discarded).  In the scenario with
`openrouter_1` saturated, `openrouter_1`'s counters stay 20/20 with
`is_exhausted` raised, and `openrouter_2` is completely untouched. -/
theorem generate_email_uses_first_key (remote : String → Option String)
    (tracker : RateLimitTracker) (now : Nat) (cfg : ApiConfig)
    (rest : List ApiConfig) (content : String)
    (hr : remote cfg.provider = some content) :
    generateEmail remote now tracker (cfg :: rest) =
      ⟨GenResult.ai (String.mk (parseEmailContentC content.data).1)
         (String.mk (parseEmailContentC content.data).2) cfg.model cfg.provider,
       (recordRequest tracker cfg.provider now).2,
       [cfg.provider]⟩ ∧
    (lookupKey (generateEmail scenarioRemote 1000 scenarioTracker
        scenarioConfigs).tracker.keys "openrouter_1" =
      some { provider := "openrouter", keyId := "openrouter_1", rpmLimit := 20,
             rpdLimit := 50, requestsThisMinute := 20, requestsToday := 20,
             minuteResetTime := 1060, dayResetTime := 86400,
             isExhausted := true }) ∧
    (lookupKey (generateEmail scenarioRemote 1000 scenarioTracker
        scenarioConfigs).tracker.keys "openrouter_2" =
      some { provider := "openrouter", keyId := "openrouter_2", rpmLimit := 20,
             rpdLimit := 50, minuteResetTime := 1060, dayResetTime := 86400 }) := by
  refine ⟨?_, by decide, by decide⟩
  simp [generateEmail, genLoop, currentConfig, hr]

/-- Witness for `generate_email_uses_first_key` at the scenario inputs. -/
theorem generate_email_uses_first_key_witness :
    generateEmail scenarioRemote 1000 scenarioTracker scenarioConfigs =
      ⟨GenResult.ai
         (String.mk (parseEmailContentC "Subject: Hi\n\nHello there".data).1)
         (String.mk (parseEmailContentC "Subject: Hi\n\nHello there".data).2)
         "m" "openrouter_1",
       (recordRequest scenarioTracker "openrouter_1" 1000).2,
       ["openrouter_1"]⟩ :=
  (generate_email_uses_first_key scenarioRemote scenarioTracker 1000
    ⟨"openrouter_1", "k1", "https://openrouter.ai/api/v1", "m"⟩
    (scenarioConfigs.drop 1) "Subject: Hi\n\nHello there" rfl).1

/-! ## WarmupScheduler (services/scheduler.py)

`process_campaign` and `_calculate_daily_target`.  Wall-clock instants
are unix seconds (`Int`); `(now - start).days` is the floor-division of
the timedelta by 86400 seconds, as Python's `timedelta.days` floors
toward minus infinity.  The randomized send-time chooser
`_calculate_random_send_time` and the SMTP outcome of
`_send_warmup_emails` are abstracted as function parameters. -/

/-- Campaign statuses (models/campaign.py `CampaignStatus`). -/
inductive CampaignStatus where
  | pending
  | active
  | paused
  | completed
  | failed
  deriving Repr, DecidableEq

/-- The Campaign columns `process_campaign` reads and writes. -/
structure Campaign where
  status : CampaignStatus
  startDate : Int
  endDate : Option Int := none
  durationWeeks : Int
  currentWeek : Int
  emailsSentToday : Nat
  targetEmailsToday : Nat
  totalEmailsSent : Nat
  nextSendTime : Option Int := none
  lastEmailSentAt : Option Int := none
  deriving Repr, DecidableEq

/-- Mirror of the week table in `_calculate_daily_target`
(`if week == 1 ... elif week >= 6 ... else`). -/
def baseTargetForWeek (week : Int) : Nat :=
  if week = 1 then 5
  else if week = 2 then 10
  else if week = 3 then 15
  else if week = 4 then 25
  else if week = 5 then 35
  else if 6 ≤ week then 50
  else 5

/-- The youngest known sender domain age (`min_age_days` loop): minimum
over the senders whose `domain_age_days` is not `None`. -/
def youngestAge : List (Option Int) → Option Int
  | [] => none
  | none :: rest => youngestAge rest
  | some a :: rest =>
      match youngestAge rest with
      | none => some a
      | some m => some (min a m)

/-- Mirror of `WarmupScheduler._calculate_daily_target`: the week-table
base, clamped in week 1 by the youngest domain age when one is known,
scaled by the number of senders and capped at
`settings.max_emails_per_day * num_senders`. -/
def calculateDailyTarget (week : Int) (ages : List (Option Int))
    (numSenders maxEmailsPerDay : Nat) : Nat :=
  let base := baseTargetForWeek week
  let base2 :=
    if week = 1 then
      match youngestAge ages with
      | some a =>
          min base (if a < 30 then 3 else if a < 90 then 5
                    else if a < 180 then 10 else base)
      | none => base
    else base
  min (base2 * numSenders) (maxEmailsPerDay * numSenders)

/-- How a `process_campaign` call exits. -/
inductive ProcessOutcome where
  | notActive
  | notTimeYet
  | completedCampaign
  | targetReached
  | sentBatch (batchSize : Nat)
  deriving Repr, DecidableEq

/-- Mirror of `WarmupScheduler.process_campaign`.  `sendResult batch` is
the number of emails `_send_warmup_emails` reports sent for a batch of
`batch` slots; `nextSend completedToday` is the instant
`_calculate_random_send_time(completed_today=completedToday)` returns.
Returns the updated campaign row, the return value (emails sent) and the
exit path taken. -/
def processCampaign (c : Campaign) (force : Bool) (now : Int)
    (ages : List (Option Int)) (numSenders maxEmailsPerDay : Nat)
    (sendResult : Nat → Nat) (nextSend : Bool → Int) :
    Campaign × Nat × ProcessOutcome :=
  if c.status ≠ CampaignStatus.active then (c, 0, .notActive)
  else if !force && (match c.nextSendTime with
                     | some t => decide (now < t)
                     | none => false) then (c, 0, .notTimeYet)
  else
    let weeksElapsed := Int.fdiv (Int.fdiv (now - c.startDate) 86400) 7 + 1
    let c1 := { c with currentWeek := min weeksElapsed c.durationWeeks }
    if c1.durationWeeks < c1.currentWeek then
      ({ c1 with status := .completed, endDate := some now }, 0, .completedCampaign)
    else
      let target := calculateDailyTarget c1.currentWeek ages numSenders maxEmailsPerDay
      let c2 := { c1 with targetEmailsToday := target }
      if target ≤ c2.emailsSentToday then
        ({ c2 with nextSendTime := some (nextSend true) }, 0, .targetReached)
      else
        let batch := min 3 (target - c2.emailsSentToday)
        let sent := sendResult batch
        let c3 := { c2 with
          emailsSentToday := c2.emailsSentToday + sent,
          totalEmailsSent := c2.totalEmailsSent + sent,
          lastEmailSentAt := some now }
        let completedToday := target ≤ c3.emailsSentToday
        ({ c3 with nextSendTime := some (nextSend completedToday) }, sent,
         .sentBatch batch)

/-- Fixture: an Active campaign 70 days (10 weeks) after start with
`duration_weeks = 6`, i.e. well past its planned end. -/
def overdueCampaign : Campaign :=
  { status := .active, startDate := 0, durationWeeks := 6, currentWeek := 6,
    emailsSentToday := 0, targetEmailsToday := 0, totalEmailsSent := 0 }

/-- C1: `process_campaign` can never take the completion branch.  The
code first sets `current_week = min(weeks_elapsed, duration_weeks)` and
then tests `current_week > duration_weeks`, which is unsatisfiable, so a
campaign whose elapsed time exceeds `duration_weeks` is **not** marked
Completed: at 70 days into a 6-week campaign the code computes a fresh
target and sends another batch, returning 3 with the status still
Active. -/
theorem process_campaign_never_completes :
    (∀ (c : Campaign) (force : Bool) (now : Int) (ages : List (Option Int))
       (numSenders maxEmailsPerDay : Nat) (sendResult : Nat → Nat)
       (nextSend : Bool → Int),
      decide ((processCampaign c force now ages numSenders maxEmailsPerDay
        sendResult nextSend).2.2 = ProcessOutcome.completedCampaign) = false) ∧
    processCampaign overdueCampaign true (70 * 86400) [some 365] 2 100
        (fun b => b) (fun _ => 0) =
      ({ status := .active, startDate := 0, endDate := none, durationWeeks := 6,
         currentWeek := 6, emailsSentToday := 3, targetEmailsToday := 100,
         totalEmailsSent := 3, nextSendTime := some 0,
         lastEmailSentAt := some (70 * 86400) }, 3,
       ProcessOutcome.sentBatch 3) := by
  constructor
  · intro c force now ages numSenders maxEmailsPerDay sendResult nextSend
    rw [decide_eq_false_iff_not]
    intro habs
    simp only [processCampaign] at habs
    split_ifs at habs with h1 h2 h3
    exact absurd h3 (not_lt.2 (min_le_right _ _))
  · decide

/-! Specification-side daily-target function, written from the claim's
words, to be compared with `calculateDailyTarget` (from the code). -/

/-- Modelled from the spec wording: the per-week base volume table
(week 1: 5, 2: 10, 3: 15, 4: 25, 5: 35, every week >= 6: 50). -/
def specWeekBase (week : Int) : Nat :=
  if week = 1 then 5
  else if week = 2 then 10
  else if week = 3 then 15
  else if week = 4 then 25
  else if week = 5 then 35
  else 50

/-- Modelled from the spec wording: the week-1 clamp by youngest domain
age (< 30 d: 3, < 90 d: 5, < 180 d: 10, >= 180 d: no clamp). -/
def specWeekOneClamp (age : Int) : Option Nat :=
  if age < 30 then some 3
  else if age < 90 then some 5
  else if age < 180 then some 10
  else none

/-- Modelled from the spec wording: base clamped in week 1 only,
multiplied by the sender count, capped at the global max per day times
the sender count. -/
def specDailyTarget (week : Int) (ages : List (Option Int))
    (numSenders maxEmailsPerDay : Nat) : Nat :=
  let base := specWeekBase week
  let clamped :=
    if week = 1 then
      match youngestAge ages with
      | some a =>
          match specWeekOneClamp a with
          | some cl => min base cl
          | none => base
      | none => base
    else base
  min (clamped * numSenders) (maxEmailsPerDay * numSenders)

/-- C3: for every week in the campaign range the code's daily target
agrees with the spec's description (week table, week-1 youngest-domain
clamp, sender scaling, global cap), and in particular the week-7 target
equals the week-6 target. -/
theorem daily_target_matches_spec (week : Int) (ages : List (Option Int))
    (numSenders maxEmailsPerDay : Nat) (h : 1 ≤ week) :
    calculateDailyTarget week ages numSenders maxEmailsPerDay =
      specDailyTarget week ages numSenders maxEmailsPerDay ∧
    calculateDailyTarget 7 ages numSenders maxEmailsPerDay =
      calculateDailyTarget 6 ages numSenders maxEmailsPerDay := by
  constructor
  · by_cases h1 : week = 1
    · subst h1
      simp only [calculateDailyTarget, specDailyTarget, baseTargetForWeek,
        specWeekBase, specWeekOneClamp]
      norm_num
      cases hy : youngestAge ages with
      | none => simp [hy]
      | some a =>
          simp only [hy]
          split_ifs <;> simp
    · by_cases h2 : week = 2
      · subst h2
        norm_num [calculateDailyTarget, specDailyTarget, baseTargetForWeek,
          specWeekBase]
      · by_cases h3 : week = 3
        · subst h3
          norm_num [calculateDailyTarget, specDailyTarget, baseTargetForWeek,
            specWeekBase]
        · by_cases h4 : week = 4
          · subst h4
            norm_num [calculateDailyTarget, specDailyTarget, baseTargetForWeek,
              specWeekBase]
          · by_cases h5 : week = 5
            · subst h5
              norm_num [calculateDailyTarget, specDailyTarget, baseTargetForWeek,
                specWeekBase]
            · have h6 : (6 : Int) ≤ week := by omega
              simp only [calculateDailyTarget, specDailyTarget, baseTargetForWeek,
                specWeekBase, if_neg h1, if_neg h2, if_neg h3, if_neg h4,
                if_neg h5, if_pos h6]
  · have n7 : ¬(7 : Int) = 1 := by norm_num
    have n6 : ¬(6 : Int) = 1 := by norm_num
    have hb : baseTargetForWeek 7 = baseTargetForWeek 6 := by
      norm_num [baseTargetForWeek]
    simp only [calculateDailyTarget, if_neg n7, if_neg n6, hb]

/-- Witness for `daily_target_matches_spec`: week 1 with a 15-day-old
domain and two senders. -/
theorem daily_target_matches_spec_witness :
    (1 : Int) ≤ 1 ∧
    (calculateDailyTarget 1 [some 15, some 365] 2 100 =
      specDailyTarget 1 [some 15, some 365] 2 100 ∧
    calculateDailyTarget 7 [some 15, some 365] 2 100 =
      calculateDailyTarget 6 [some 15, some 365] 2 100) :=
  ⟨by norm_num, daily_target_matches_spec 1 [some 15, some 365] 2 100 (by norm_num)⟩

/-! ## PATCH /campaigns/{id}/status (api/campaigns.py update_campaign_status)

The endpoint looks up the campaign, rejects with 404 when absent and with
400 ("Cannot modify completed campaign") when the current status is
Completed, then assigns whatever status was requested, setting `end_date`
when the new status is Completed.  No other transition validation is
performed. -/

/-- HTTP outcome of the status-update endpoint. -/
inductive StatusUpdateResult where
  | ok (campaign : Campaign)
  | notFound
  | badRequest (detail : String)
  deriving Repr, DecidableEq

/-- Discriminator for the 400 outcome. -/
def StatusUpdateResult.isBadRequest : StatusUpdateResult → Bool
  | .badRequest _ => true
  | _ => false

/-- Mirror of `update_campaign_status`: the stored row (`Option` for a
missing id) together with the response; the second component is the row
as persisted after the call. -/
def updateCampaignStatus (stored : Option Campaign)
    (newStatus : CampaignStatus) (now : Int) :
    StatusUpdateResult × Option Campaign :=
  match stored with
  | none => (.notFound, none)
  | some c =>
      if c.status = CampaignStatus.completed then
        (.badRequest "Cannot modify completed campaign", some c)
      else
        let c1 := { c with status := newStatus }
        let c2 :=
          if newStatus = CampaignStatus.completed then
            { c1 with endDate := some now }
          else c1
        (.ok c2, some c2)

/-- Fixture: a Paused campaign in week 2. -/
def pausedCampaign : Campaign :=
  { status := .paused, startDate := 0, durationWeeks := 6, currentWeek := 2,
    emailsSentToday := 0, targetEmailsToday := 10, totalEmailsSent := 12 }

/-- C4 counterexample.  Paused → Failed is not one of the state machine's
allowed transitions, yet the endpoint applies it and answers 200: no 400
is produced and the row is mutated. -/
theorem update_status_accepts_invalid_transition :
    updateCampaignStatus (some pausedCampaign) .failed 1000 =
      (.ok { pausedCampaign with status := .failed },
       some { pausedCampaign with status := .failed }) ∧
    (updateCampaignStatus (some pausedCampaign) .failed 1000).1.isBadRequest =
      false ∧
    (updateCampaignStatus (some pausedCampaign) .failed 1000).2 ≠
      some pausedCampaign := by
  refine ⟨by decide, by decide, by decide⟩

/-- C4 (amended): the endpoint returns 400 and leaves the row unchanged
exactly when the current status is Completed; for every other current
status it applies whatever status is requested and returns 200 (setting
`end_date` when the new status is Completed), with no transition
validation; a missing campaign yields 404. -/
theorem update_status_spec :
    (∀ (c : Campaign) (s : CampaignStatus) (now : Int),
      c.status = CampaignStatus.completed →
      updateCampaignStatus (some c) s now =
        (.badRequest "Cannot modify completed campaign", some c)) ∧
    (∀ (c : Campaign) (s : CampaignStatus) (now : Int),
      c.status ≠ CampaignStatus.completed → s ≠ CampaignStatus.completed →
      updateCampaignStatus (some c) s now =
        (.ok { c with status := s }, some { c with status := s })) ∧
    (∀ (c : Campaign) (now : Int),
      c.status ≠ CampaignStatus.completed →
      updateCampaignStatus (some c) CampaignStatus.completed now =
        (.ok { c with status := .completed, endDate := some now },
         some { c with status := .completed, endDate := some now })) ∧
    (∀ (s : CampaignStatus) (now : Int),
      updateCampaignStatus none s now = (.notFound, none)) := by
  refine ⟨?_, ?_, ?_, fun s now => rfl⟩
  · intro c s now hc
    simp [updateCampaignStatus, hc]
  · intro c s now hc hs
    simp [updateCampaignStatus, hc, hs]
  · intro c now hc
    simp [updateCampaignStatus, hc]

/-- Witness for `update_status_spec` at concrete campaigns. -/
theorem update_status_spec_witness :
    updateCampaignStatus (some { pausedCampaign with status := .completed })
        .active 5 =
      (.badRequest "Cannot modify completed campaign",
       some { pausedCampaign with status := .completed }) ∧
    updateCampaignStatus (some pausedCampaign) .active 5 =
      (.ok { pausedCampaign with status := .active },
       some { pausedCampaign with status := .active }) ∧
    updateCampaignStatus (some pausedCampaign) .completed 5 =
      (.ok { pausedCampaign with status := .completed, endDate := some 5 },
       some { pausedCampaign with status := .completed, endDate := some 5 }) ∧
    updateCampaignStatus none .active 5 = (.notFound, none) :=
  ⟨update_status_spec.1 _ .active 5 rfl,
   update_status_spec.2.1 pausedCampaign .active 5 (by decide) (by decide),
   update_status_spec.2.2.1 pausedCampaign 5 (by decide),
   update_status_spec.2.2.2 .active 5⟩

/-! ## Tracking tokens (services/tracking_token.py)

`generate_tracking_token` and `validate_tracking_token`.  The HMAC-SHA256
hex digest of `hashlib`/`hmac` is abstracted as a parameter
`hmacHex : String → String → String` (secret, message ↦ hex digest);
`hexdigest()[:32]` is the 32-character truncation.  `hmac.compare_digest`
is a constant-time string equality; its value is plain equality. -/

/-- `hexdigest()[:32]`: first 32 characters of the hex digest. -/
def hexTrunc32 (s : String) : String := String.mk (s.data.take 32)

/-- The signed message `f"{email_id}:{timestamp}"`. -/
def tokenMessage (emailId : Nat) (timestamp : Int) : String :=
  toString emailId ++ ":" ++ toString timestamp

/-- Mirror of `generate_tracking_token`: token and issue timestamp. -/
def generateTrackingToken (hmacHex : String → String → String)
    (secret : String) (emailId : Nat) (now : Int) : String × Int :=
  (hexTrunc32 (hmacHex secret (tokenMessage emailId now)), now)

/-- Mirror of `validate_tracking_token`: reject tokens older than 30 days
or from the future, then compare against the recomputed token. -/
def validateTrackingToken (hmacHex : String → String → String)
    (secret : String) (emailId : Nat) (token : String) (timestamp : Int)
    (now : Int) : Bool :=
  let tokenAge := now - timestamp
  if 30 * 86400 < tokenAge then false
  else if tokenAge < 0 then false
  else token == hexTrunc32 (hmacHex secret (tokenMessage emailId timestamp))

/-- C7: validation accepts exactly the fresh correctly-signed triples:
`validate(id, token, ts)` is true iff `0 ≤ now − ts ≤ 30 d` and `token`
is the truncated MAC of `"<id>:<ts>"`; hence a freshly generated pair
validates, a different token never validates, and changing `id` or `ts`
fails validation whenever the recomputed truncated MAC differs (as the
claim assumes of HMAC). -/
theorem validate_tracking_token_spec
    (hmacHex : String → String → String) (secret : String) (emailId : Nat)
    (token : String) (timestamp now : Int) :
    (validateTrackingToken hmacHex secret emailId token timestamp now = true ↔
      0 ≤ now - timestamp ∧ now - timestamp ≤ 30 * 86400 ∧
      token = hexTrunc32 (hmacHex secret (tokenMessage emailId timestamp))) ∧
    (∀ issueTime : Int, 0 ≤ now - issueTime → now - issueTime ≤ 30 * 86400 →
      validateTrackingToken hmacHex secret emailId
        (generateTrackingToken hmacHex secret emailId issueTime).1
        (generateTrackingToken hmacHex secret emailId issueTime).2 now = true) ∧
    (∀ badToken : String,
      badToken ≠ hexTrunc32 (hmacHex secret (tokenMessage emailId timestamp)) →
      validateTrackingToken hmacHex secret emailId badToken timestamp now =
        false) ∧
    (∀ otherId : Nat,
      hexTrunc32 (hmacHex secret (tokenMessage otherId timestamp)) ≠
        hexTrunc32 (hmacHex secret (tokenMessage emailId timestamp)) →
      validateTrackingToken hmacHex secret otherId
        (hexTrunc32 (hmacHex secret (tokenMessage emailId timestamp)))
        timestamp now = false) ∧
    (∀ otherTs : Int,
      hexTrunc32 (hmacHex secret (tokenMessage emailId otherTs)) ≠
        hexTrunc32 (hmacHex secret (tokenMessage emailId timestamp)) →
      validateTrackingToken hmacHex secret emailId
        (hexTrunc32 (hmacHex secret (tokenMessage emailId timestamp)))
        otherTs now = false) := by
  have hiff : ∀ (i : Nat) (tok : String) (ts : Int),
      validateTrackingToken hmacHex secret i tok ts now = true ↔
        0 ≤ now - ts ∧ now - ts ≤ 30 * 86400 ∧
        tok = hexTrunc32 (hmacHex secret (tokenMessage i ts)) := by
    intro i tok ts
    simp only [validateTrackingToken]
    by_cases h1 : 30 * 86400 < now - ts
    · rw [if_pos h1]
      exact iff_of_false (by simp) (fun h => by have := h.2.1; omega)
    · by_cases h2 : now - ts < 0
      · rw [if_neg h1, if_pos h2]
        exact iff_of_false (by simp) (fun h => by have := h.1; omega)
      · rw [if_neg h1, if_neg h2]
        constructor
        · intro h
          exact ⟨by omega, by omega, by simpa using h⟩
        · intro h
          simpa using h.2.2
  refine ⟨hiff emailId token timestamp, ?_, ?_, ?_, ?_⟩
  · intro issueTime hfresh hnotexp
    exact (hiff emailId _ issueTime).2 ⟨hfresh, hnotexp, rfl⟩
  · intro badToken hbad
    cases hval : validateTrackingToken hmacHex secret emailId badToken timestamp now
    · rfl
    · exact absurd ((hiff emailId badToken timestamp).1 hval).2.2 hbad
  · intro otherId hne
    cases hval : validateTrackingToken hmacHex secret otherId
        (hexTrunc32 (hmacHex secret (tokenMessage emailId timestamp)))
        timestamp now
    · rfl
    · exact absurd ((hiff otherId _ timestamp).1 hval).2.2
        (fun he => hne he.symm)
  · intro otherTs hne
    cases hval : validateTrackingToken hmacHex secret emailId
        (hexTrunc32 (hmacHex secret (tokenMessage emailId timestamp)))
        otherTs now
    · rfl
    · exact absurd ((hiff emailId _ otherTs).1 hval).2.2 (by
        intro habs
        exact hne habs.symm)

/-- Concrete stand-in MAC for the witness: prefixes the secret and
message, then pads with a fixed hex tail, so distinct messages give
distinct 32-character truncations. -/
def witnessMac (secret message : String) : String :=
  secret ++ "/" ++ message ++ "/0123456789abcdef0123456789abcdef0123456789abcdef"

/-- Witness for `validate_tracking_token_spec` with a concrete MAC,
secret, id and timestamps. -/
theorem validate_tracking_token_spec_witness :
    validateTrackingToken witnessMac "k" 7
        (generateTrackingToken witnessMac "k" 7 100).1
        (generateTrackingToken witnessMac "k" 7 100).2 200 = true ∧
    validateTrackingToken witnessMac "k" 7 "deadbeef" 100 200 = false ∧
    validateTrackingToken witnessMac "k" 8
        (hexTrunc32 (witnessMac "k" (tokenMessage 7 100))) 100 200 = false ∧
    validateTrackingToken witnessMac "k" 7
        (hexTrunc32 (witnessMac "k" (tokenMessage 7 100))) 101 200 = false := by
  have h := validate_tracking_token_spec witnessMac "k" 7 "deadbeef" 100 200
  refine ⟨h.2.1 100 (by norm_num) (by norm_num), ?_, ?_, ?_⟩
  · exact h.2.2.1 "deadbeef" (by decide)
  · exact h.2.2.2.1 8 (by decide)
  · exact h.2.2.2.2 101 (by decide)

/-! ## GET /track/open/{email_id} (api/tracking.py track_email_open)

The endpoint always answers with the 1×1 transparent GIF; when tokens are
required it silently skips recording for missing or invalid tokens;
otherwise, if the email exists and `opened_at` is null it sets
`opened_at = now` and increments the sender's `total_opened` once.
State is the stored `opened_at` (inside `Option` for a missing email row)
plus the sender's `total_opened` counter. -/

/-- Response of the tracking endpoint: every code path serves the GIF
pixel with no-cache headers. -/
inductive TrackResponse where
  | gifPixel
  deriving Repr, DecidableEq

/-- Mirror of `track_email_open`. -/
def trackEmailOpen (tokenRequired tokenPresent tokenValid : Bool)
    (email : Option (Option Int)) (senderTotalOpened : Nat) (now : Int) :
    Option (Option Int) × Nat × TrackResponse :=
  if tokenRequired && !tokenPresent then
    (email, senderTotalOpened, .gifPixel)
  else if tokenRequired && !tokenValid then
    (email, senderTotalOpened, .gifPixel)
  else
    match email with
    | none => (none, senderTotalOpened, .gifPixel)
    | some (some t) => (some (some t), senderTotalOpened, .gifPixel)
    | some none => (some (some now), senderTotalOpened + 1, .gifPixel)

/-- C6: recording an open is first-open-wins and idempotent: a valid
request on an email with null `opened_at` sets it to `now` and increments
the sender's `total_opened` by exactly one; every request on an email
whose `opened_at` is already set (valid or not) changes nothing; and
every request whatsoever is answered with the GIF pixel. -/
theorem track_open_idempotent :
    (∀ (tokenRequired tokenPresent tokenValid : Bool) (n : Nat) (now : Int),
      (tokenRequired = true → tokenPresent = true ∧ tokenValid = true) →
      trackEmailOpen tokenRequired tokenPresent tokenValid (some none) n now =
        (some (some now), n + 1, .gifPixel)) ∧
    (∀ (tokenRequired tokenPresent tokenValid : Bool) (t : Int) (n : Nat)
       (now : Int),
      trackEmailOpen tokenRequired tokenPresent tokenValid (some (some t)) n
          now =
        (some (some t), n, .gifPixel)) ∧
    (∀ (tokenRequired tokenPresent tokenValid : Bool)
       (email : Option (Option Int)) (n : Nat) (now : Int),
      (trackEmailOpen tokenRequired tokenPresent tokenValid email n now).2.2 =
        .gifPixel) := by
  refine ⟨?_, ?_, ?_⟩
  · intro tokenRequired tokenPresent tokenValid n now h
    cases tokenRequired with
    | false => rfl
    | true =>
        obtain ⟨hp, hv⟩ := h rfl
        subst hp
        subst hv
        rfl
  · intro tokenRequired tokenPresent tokenValid t n now
    unfold trackEmailOpen
    split_ifs <;> rfl
  · intro tokenRequired tokenPresent tokenValid email n now
    unfold trackEmailOpen
    split_ifs
    · rfl
    · rfl
    · cases email with
      | none => rfl
      | some o => cases o <;> rfl

/-- Witness for `track_open_idempotent`: a required valid token, an
unopened email, counter 10, opened at t = 55, then re-requested. -/
theorem track_open_idempotent_witness :
    trackEmailOpen true true true (some none) 10 55 =
      (some (some 55), 11, .gifPixel) ∧
    trackEmailOpen true true true (some (some 55)) 11 99 =
      (some (some 55), 11, .gifPixel) :=
  ⟨track_open_idempotent.1 true true true 10 55 (fun _ => ⟨rfl, rfl⟩),
   track_open_idempotent.2.1 true true true 55 11 99⟩

/-! ## BounceDetector (services/bounce_detector.py)

`is_bounce_message`, `_find_bounced_email` and `process_sender_bounces`.
The RFC-5322 address regex `re.findall` over the bounce body is
abstracted as a parameter `extract : String → List String`; the regex
word patterns with `\s+` are embedded as word-sequence matchers over
character lists.  Fetching unread mail via IMAP `RFC822` marks the
fetched messages `\Seen` (per the comment in
`EmailService.fetch_unread_emails`), and bounce notifications are
additionally marked read explicitly. -/

/-- Email statuses (models/email.py `EmailStatus`). -/
inductive EmailStatus where
  | pending
  | sent
  | delivered
  | opened
  | replied
  | bounced
  | failed
  deriving Repr, DecidableEq

/-- The Email columns the bounce detector reads and writes
(`receiver.email` inlined from the relationship). -/
structure EmailRec where
  id : Nat
  senderId : Nat
  receiverEmail : String
  status : EmailStatus
  sentAt : Int
  bouncedAt : Option Int := none
  deriving Repr, DecidableEq

/-- The sender Account fields the bounce detector uses. -/
structure SenderAccount where
  id : Nat
  email : String
  totalBounced : Nat
  deriving Repr, DecidableEq

/-- One message of the sender's IMAP inbox, with its `\Seen` flag. -/
structure InboxMsg where
  imapId : Nat
  subject : String
  fromAddr : String
  body : String
  seen : Bool
  deriving Repr, DecidableEq

/-- Consume an exact prefix, returning the rest. -/
def dropPrefixC : List Char → List Char → Option (List Char)
  | s, [] => some s
  | [], _ :: _ => none
  | c :: cs, p :: ps => if c = p then dropPrefixC cs ps else none

/-- Consume one-or-more whitespace (`\s+`), returning the rest. -/
def skipWs1 : List Char → Option (List Char)
  | [] => none
  | c :: cs => if isPyWs c then some (cs.dropWhile isPyWs) else none

/-- Match a `\s+`-separated word sequence starting at this position. -/
def matchSeqAt : List Char → List (List Char) → Bool
  | _, [] => true
  | s, [w] => (dropPrefixC s w).isSome
  | s, w :: ws =>
      match dropPrefixC s w with
      | none => false
      | some rest =>
          match skipWs1 rest with
          | none => false
          | some rest2 => matchSeqAt rest2 ws

/-- `re.search` of a `\s+`-separated word sequence anywhere in the
string. -/
def containsSeq (s : List Char) (words : List (List Char)) : Bool :=
  match s with
  | [] => matchSeqAt [] words
  | _ :: rest => matchSeqAt s words || containsSeq rest words

/-- The `BOUNCE_SUBJECT_PATTERNS` of `BounceDetector`, searched
case-insensitively (`re.IGNORECASE`), with `(failed|failure)` expanded. -/
def bounceSubjectMatch (subject : String) : Bool :=
  let s := lowerC subject.data
  containsSeq s ["delivery".data, "status".data, "notification".data] ||
  containsSeq s ["undelivered".data, "mail".data] ||
  containsSeq s ["returned".data, "mail".data] ||
  containsSeq s ["mail".data, "delivery".data, "failed".data] ||
  containsSeq s ["mail".data, "delivery".data, "failure".data] ||
  containsSub s "undeliverable".data ||
  containsSub s "mailer-daemon".data ||
  containsSeq s ["delivery".data, "failure".data] ||
  containsSeq s ["message".data, "not".data, "delivered".data]

/-- Mirror of `BounceDetector.is_bounce_message`: bounce-ish from-address
keywords, else the subject patterns. -/
def isBounceMessage (subject sender : String) : Bool :=
  let sl := lowerC sender.data
  (containsSub sl "mailer-daemon".data || containsSub sl "postmaster".data ||
   containsSub sl "noreply".data) || bounceSubjectMatch subject

/-- Insert into a list sorted by `sent_at` descending. -/
def insertBySentDesc (e : EmailRec) : List EmailRec → List EmailRec
  | [] => [e]
  | x :: xs =>
      if x.sentAt ≤ e.sentAt then e :: x :: xs else x :: insertBySentDesc e xs

/-- Sort by `sent_at` descending (the `ORDER BY sent_at DESC`). -/
def sortBySentDesc : List EmailRec → List EmailRec
  | [] => []
  | e :: es => insertBySentDesc e (sortBySentDesc es)

/-- The query of `_find_bounced_email`: the sender's `Sent` emails,
newest first, limited to 10. -/
def recentSentEmails (emails : List EmailRec) (senderId : Nat) :
    List EmailRec :=
  (sortBySentDesc (emails.filter fun e =>
    decide (e.senderId = senderId) && decide (e.status = EmailStatus.sent))).take 10

/-- The candidate loop of `_find_bounced_email`: skip the account's own
address, return the first recent Sent email whose receiver matches the
candidate case-insensitively. -/
def searchCandidates (acc : SenderAccount) (emails : List EmailRec) :
    List String → Option EmailRec
  | [] => none
  | c :: cs =>
      if lowerC c.data = lowerC acc.email.data then searchCandidates acc emails cs
      else
        match (recentSentEmails emails acc.id).find?
            (fun e => decide (lowerC e.receiverEmail.data = lowerC c.data)) with
        | some e => some e
        | none => searchCandidates acc emails cs

/-- Mirror of `BounceDetector._find_bounced_email`, with the address
regex abstracted as `extract`. -/
def findBouncedEmail (extract : String → List String) (acc : SenderAccount)
    (emails : List EmailRec) (bounceBody : String) : Option EmailRec :=
  searchCandidates acc emails (extract bounceBody)

/-- Flip the found email to `Bounced` with `bounced_at = now`. -/
def markBounced (emails : List EmailRec) (targetId : Nat) (now : Int) :
    List EmailRec :=
  emails.map fun e =>
    if e.id = targetId then
      { e with status := EmailStatus.bounced, bouncedAt := some now }
    else e

/-- The per-message loop of `process_sender_bounces` over the fetched
unread messages, threading the account, the email table and the bounce
count. -/
def processMsgs (extract : String → List String) (now : Int) :
    List InboxMsg → SenderAccount → List EmailRec → Nat →
    SenderAccount × List EmailRec × Nat
  | [], acc, emails, count => (acc, emails, count)
  | m :: ms, acc, emails, count =>
      if isBounceMessage m.subject m.fromAddr then
        match findBouncedEmail extract acc emails m.body with
        | some e =>
            processMsgs extract now ms
              { acc with totalBounced := acc.totalBounced + 1 }
              (markBounced emails e.id now) (count + 1)
        | none => processMsgs extract now ms acc emails count
      else processMsgs extract now ms acc emails count

/-- Membership of an id in the fetched-id list (`in` on a Python list). -/
def memId (x : Nat) : List Nat → Bool
  | [] => false
  | y :: ys => x = y || memId x ys

/-- Mirror of `BounceDetector.process_sender_bounces`: fetch up to 50
unread messages (which marks them `\Seen`), process bounces, and return
the updated account, email table, inbox and bounce count. -/
def processSenderBounces (extract : String → List String)
    (acc : SenderAccount) (emails : List EmailRec) (inbox : List InboxMsg)
    (now : Int) :
    SenderAccount × List EmailRec × List InboxMsg × Nat :=
  let fetched := (inbox.filter fun m => !m.seen).take 50
  let r := processMsgs extract now fetched acc emails 0
  let fetchedIds := fetched.map InboxMsg.imapId
  let inbox2 := inbox.map fun m =>
    if memId m.imapId fetchedIds then { m with seen := true } else m
  (r.1, r.2.1, inbox2, r.2.2)

/-- Helper: membership through descending insertion. -/
lemma mem_insertBySentDesc {a e : EmailRec} {l : List EmailRec} :
    a ∈ insertBySentDesc e l ↔ a = e ∨ a ∈ l := by
  induction l with
  | nil => simp [insertBySentDesc]
  | cons x xs ih =>
      simp only [insertBySentDesc]
      split_ifs
      · simp
      · simp only [List.mem_cons, ih]
        tauto

/-- Helper: sorting by `sent_at` keeps the same members. -/
lemma mem_sortBySentDesc {a : EmailRec} {l : List EmailRec} :
    a ∈ sortBySentDesc l ↔ a ∈ l := by
  induction l with
  | nil => simp [sortBySentDesc]
  | cons e es ih => simp [sortBySentDesc, mem_insertBySentDesc, ih]

/-- Helper: a recent-Sent query result is a Sent email of this sender. -/
lemma recentSentEmails_sound {emails : List EmailRec} {sid : Nat}
    {e : EmailRec} (h : e ∈ recentSentEmails emails sid) :
    e.senderId = sid ∧ e.status = EmailStatus.sent ∧ e ∈ emails := by
  have h1 : e ∈ sortBySentDesc (emails.filter fun x =>
      decide (x.senderId = sid) && decide (x.status = EmailStatus.sent)) :=
    List.mem_of_mem_take h
  have h2 := mem_sortBySentDesc.1 h1
  have h3 := List.mem_filter.1 h2
  refine ⟨?_, ?_, h3.1⟩
  · have := h3.2
    simp at this
    exact this.1
  · have := h3.2
    simp at this
    exact this.2

/-- Helper: what a successful candidate search guarantees. -/
lemma searchCandidates_some {acc : SenderAccount} {emails : List EmailRec}
    {cs : List String} {e : EmailRec}
    (h : searchCandidates acc emails cs = some e) :
    e ∈ recentSentEmails emails acc.id ∧
    ∃ c ∈ cs, ¬(lowerC c.data = lowerC acc.email.data) ∧
      lowerC e.receiverEmail.data = lowerC c.data := by
  induction cs with
  | nil => simp [searchCandidates] at h
  | cons c cs ih =>
      simp only [searchCandidates] at h
      split_ifs at h with hown
      · obtain ⟨hm, c2, hc2, hn, he⟩ := ih h
        exact ⟨hm, c2, List.mem_cons_of_mem _ hc2, hn, he⟩
      · cases hf : (recentSentEmails emails acc.id).find?
            (fun x => decide (lowerC x.receiverEmail.data = lowerC c.data)) with
        | some e2 =>
            rw [hf] at h
            have he2 : e2 = e := by
              simpa using h
            subst he2
            have hp := List.find?_some hf
            have hmem := List.mem_of_find?_eq_some hf
            simp at hp
            exact ⟨hmem, c, List.mem_cons_self _ _, hown, hp⟩
        | none =>
            rw [hf] at h
            obtain ⟨hm, c2, hc2, hn, he⟩ := ih h
            exact ⟨hm, c2, List.mem_cons_of_mem _ hc2, hn, he⟩

/-- Helper: `memId` is Boolean list membership. -/
lemma memId_eq_true {x : Nat} {l : List Nat} : memId x l = true ↔ x ∈ l := by
  induction l with
  | nil => simp [memId]
  | cons y ys ih => simp [memId, ih]

/-- Helper: the marked email really carries the Bounced status and the
timestamp. -/
lemma markBounced_sound {emails : List EmailRec} {i : Nat} {now : Int}
    {x : EmailRec} (hx : x ∈ markBounced emails i now) (hid : x.id = i) :
    x.status = EmailStatus.bounced ∧ x.bouncedAt = some now := by
  obtain ⟨y, hy, hxy⟩ := List.mem_map.1 hx
  by_cases hyi : y.id = i
  · rw [if_pos hyi] at hxy
    rw [← hxy]
    exact ⟨rfl, rfl⟩
  · rw [if_neg hyi] at hxy
    rw [← hxy] at hid
    exact absurd hid hyi

/-- Helper: a run over an all-seen inbox is a complete no-op. -/
lemma processSenderBounces_all_seen {extract : String → List String}
    {acc : SenderAccount} {emails : List EmailRec} {inbox : List InboxMsg}
    {now : Int} (hall : ∀ m ∈ inbox, m.seen = true) :
    processSenderBounces extract acc emails inbox now =
      (acc, emails, inbox, 0) := by
  have hfil : inbox.filter (fun m => !m.seen) = [] := by
    rw [List.filter_eq_nil_iff]
    intro m hm
    simp [hall m hm]
  simp [processSenderBounces, hfil, processMsgs, memId]

/-- Helper: when at most 50 messages are unread, a run leaves every
message of the inbox seen. -/
lemma processSenderBounces_marks_seen {extract : String → List String}
    {acc : SenderAccount} {emails : List EmailRec} {inbox : List InboxMsg}
    {now : Int} (h50 : (inbox.filter fun m => !m.seen).length ≤ 50) :
    ∀ m2 ∈ (processSenderBounces extract acc emails inbox now).2.2.1,
      m2.seen = true := by
  intro m2 hm2
  simp only [processSenderBounces] at hm2
  obtain ⟨m, hm, hfm⟩ := List.mem_map.1 hm2
  have htake : (inbox.filter fun m => !m.seen).take 50 =
      inbox.filter fun m => !m.seen := List.take_of_length_le h50
  by_cases hseen : m.seen
  · by_cases hid : memId m.imapId (((inbox.filter fun m => !m.seen).take 50).map
        InboxMsg.imapId) = true
    · rw [if_pos hid] at hfm
      rw [← hfm]
    · rw [if_neg hid] at hfm
      rw [← hfm]
      exact hseen
  · have hmf : m ∈ inbox.filter fun m => !m.seen :=
      List.mem_filter.2 ⟨hm, by simp [hseen]⟩
    have hid : memId m.imapId (((inbox.filter fun m => !m.seen).take 50).map
        InboxMsg.imapId) = true := by
      rw [htake]
      exact memId_eq_true.2 (List.mem_map_of_mem _ hmf)
    rw [if_pos hid] at hfm
    rw [← hfm]

/-- C5: a bounce notification whose body yields a candidate address
(other than the account's own) matching the receiver of one of the
sender's 10 most recent Sent emails flips that first-found email to
Bounced with `bounced_at = now` and increments the account's
`total_bounced` by one, marking the notification seen; the found email
really is a Sent email of this sender matched case-insensitively by an
extracted non-own candidate; and a second run over the same inbox is a
no-op (zero bounces, nothing further changed). -/
theorem bounce_detector_spec :
    (∀ (extract : String → List String) (acc : SenderAccount)
       (emails : List EmailRec) (msg : InboxMsg) (now : Int) (e : EmailRec),
      msg.seen = false →
      isBounceMessage msg.subject msg.fromAddr = true →
      findBouncedEmail extract acc emails msg.body = some e →
      processSenderBounces extract acc emails [msg] now =
        ({ acc with totalBounced := acc.totalBounced + 1 },
         markBounced emails e.id now, [{ msg with seen := true }], 1)) ∧
    (∀ (extract : String → List String) (acc : SenderAccount)
       (emails : List EmailRec) (body : String) (e : EmailRec),
      findBouncedEmail extract acc emails body = some e →
      e.senderId = acc.id ∧ e.status = EmailStatus.sent ∧ e ∈ emails ∧
      ∃ c ∈ extract body, ¬(lowerC c.data = lowerC acc.email.data) ∧
        lowerC e.receiverEmail.data = lowerC c.data) ∧
    (∀ (emails : List EmailRec) (i : Nat) (now : Int) (x : EmailRec),
      x ∈ markBounced emails i now → x.id = i →
      x.status = EmailStatus.bounced ∧ x.bouncedAt = some now) ∧
    (∀ (extract : String → List String) (acc : SenderAccount)
       (emails : List EmailRec) (inbox : List InboxMsg) (now now2 : Int)
       (acc1 : SenderAccount) (emails1 : List EmailRec)
       (inbox1 : List InboxMsg) (n1 : Nat),
      (inbox.filter fun m => !m.seen).length ≤ 50 →
      processSenderBounces extract acc emails inbox now =
        (acc1, emails1, inbox1, n1) →
      processSenderBounces extract acc1 emails1 inbox1 now2 =
        (acc1, emails1, inbox1, 0)) := by
  refine ⟨?_, ?_, ?_, ?_⟩
  · intro extract acc emails msg now e hseen hbounce hfind
    simp [processSenderBounces, hseen, hbounce, hfind, processMsgs, memId]
  · intro extract acc emails body e hfind
    obtain ⟨hmem, c, hc, hn, he⟩ := searchCandidates_some hfind
    obtain ⟨hsid, hst, hin⟩ := recentSentEmails_sound hmem
    exact ⟨hsid, hst, hin, c, hc, hn, he⟩
  · intro emails i now x hx hid
    exact markBounced_sound hx hid
  · intro extract acc emails inbox now now2 acc1 emails1 inbox1 n1 h50 hrun
    have hall : ∀ m ∈ inbox1, m.seen = true := by
      intro m hm
      have := @processSenderBounces_marks_seen extract acc emails inbox now h50
      rw [hrun] at this
      exact this m hm
    exact processSenderBounces_all_seen hall

/-- Witness for `bounce_detector_spec`: end-to-end scenario 4 — a
`MAILER-DAEMON` notification quoting `R1@example.com`, one recent Sent
email to that receiver, then a second run. -/
theorem bounce_detector_spec_witness :
    processSenderBounces (fun _ => ["r1@example.com"])
        ⟨1, "s1@corp.com", 0⟩
        [⟨5, 1, "R1@example.com", EmailStatus.sent, 50, none⟩]
        [⟨9, "Undelivered Mail Returned to Sender", "MAILER-DAEMON@isp",
          "could not deliver to R1@example.com", false⟩] 1000 =
      (⟨1, "s1@corp.com", 1⟩,
       [⟨5, 1, "R1@example.com", EmailStatus.bounced, 50, some 1000⟩],
       [⟨9, "Undelivered Mail Returned to Sender", "MAILER-DAEMON@isp",
         "could not deliver to R1@example.com", true⟩], 1) ∧
    (⟨5, 1, "R1@example.com", EmailStatus.sent, 50, none⟩ : EmailRec).senderId
        = 1 ∧
    processSenderBounces (fun _ => ["r1@example.com"])
        ⟨1, "s1@corp.com", 1⟩
        [⟨5, 1, "R1@example.com", EmailStatus.bounced, 50, some 1000⟩]
        [⟨9, "Undelivered Mail Returned to Sender", "MAILER-DAEMON@isp",
          "could not deliver to R1@example.com", true⟩] 2000 =
      (⟨1, "s1@corp.com", 1⟩,
       [⟨5, 1, "R1@example.com", EmailStatus.bounced, 50, some 1000⟩],
       [⟨9, "Undelivered Mail Returned to Sender", "MAILER-DAEMON@isp",
         "could not deliver to R1@example.com", true⟩], 0) := by
  have h1 := bounce_detector_spec.1 (fun _ => ["r1@example.com"])
    ⟨1, "s1@corp.com", 0⟩
    [⟨5, 1, "R1@example.com", EmailStatus.sent, 50, none⟩]
    ⟨9, "Undelivered Mail Returned to Sender", "MAILER-DAEMON@isp",
      "could not deliver to R1@example.com", false⟩ 1000
    ⟨5, 1, "R1@example.com", EmailStatus.sent, 50, none⟩
    rfl (by decide) (by decide)
  refine ⟨?_, ?_, ?_⟩
  · rw [h1]
    decide
  · exact (bounce_detector_spec.2.1 (fun _ => ["r1@example.com"])
      ⟨1, "s1@corp.com", 0⟩
      [⟨5, 1, "R1@example.com", EmailStatus.sent, 50, none⟩]
      "could not deliver to R1@example.com"
      ⟨5, 1, "R1@example.com", EmailStatus.sent, 50, none⟩ (by decide)).1
  · exact bounce_detector_spec.2.2.2 (fun _ => ["r1@example.com"])
      ⟨1, "s1@corp.com", 0⟩
      [⟨5, 1, "R1@example.com", EmailStatus.sent, 50, none⟩]
      [⟨9, "Undelivered Mail Returned to Sender", "MAILER-DAEMON@isp",
        "could not deliver to R1@example.com", false⟩] 1000 2000
      ⟨1, "s1@corp.com", 1⟩
      [⟨5, 1, "R1@example.com", EmailStatus.bounced, 50, some 1000⟩]
      [⟨9, "Undelivered Mail Returned to Sender", "MAILER-DAEMON@isp",
        "could not deliver to R1@example.com", true⟩] 1
      (by decide) (by decide)

end WarmIt
